import Mathlib

/-!
Shallow embedding of the synthetic-bridge value-generation engine of
TrixelServiceBridges (src/trixelservicebridges/synthetic_bridge).

Machine floats are modelled as rationals; the shared numpy entropy source is
modelled as an explicit oracle: every random draw the code may perform is an
input to the embedded function.  A `uniform(a, b)` or `normal(mu, sigma)` draw
is an unconstrained oracle value; theorems quantified over all oracles cover in
particular every realizable execution, and concrete counterexamples use oracle
values inside the realizable range.
-/

/-- Value-generation policy, mirroring `FixedValue | NormalRandom | UniformRandom`
from `config_schema.py`. -/
inductive GenPolicy where
  | fixed (value : ℚ)
  | uniformRandom (min max : ℚ)
  | normalRandom (mean deviation : ℚ)
deriving DecidableEq

/-- Embedding of `sample_value` (configuration_value_sampler.py lines 17-30).
A fixed policy returns its literal; the two random policies consume the given
oracle draw. -/
def sample_value (config : GenPolicy) (draw : ℚ) : ℚ :=
  match config with
  | .fixed v => v
  | .uniformRandom _ _ => draw
  | .normalRandom _ _ => draw

/-- Python's `%` on rationals: `x - y * floor (x / y)`, which takes the sign of
the divisor.  Used by the latitude/longitude wraparound and the day-age
computation. -/
def pymod (x y : ℚ) : ℚ := x - y * ⌊x / y⌋

/-- Latitude wraparound of `sample_location` for the NormalRandom branch
(configuration_value_sampler.py lines 57-60):
`lat > 90  ->  -90 + lat % 90`, `lat < -90  ->  90 + lat % -90`. -/
def wrap_latitude (latitude : ℚ) : ℚ :=
  if latitude > 90 then -90 + pymod latitude 90
  else if latitude < -90 then 90 + pymod latitude (-90)
  else latitude

/-- Longitude wraparound of `sample_location` for the NormalRandom branch
(configuration_value_sampler.py lines 62-65). -/
def wrap_longitude (longitude : ℚ) : ℚ :=
  if longitude > 180 then -180 + pymod longitude 180
  else if longitude < -180 then 180 + pymod longitude (-180)
  else longitude

/-- Embedding of `int(np.ceil(np.sqrt(n)))` used for the grid side length
(configuration_value_sampler.py lines 68-73). -/
def ceil_sqrt (n : ℕ) : ℕ :=
  if Nat.sqrt n * Nat.sqrt n = n then Nat.sqrt n else Nat.sqrt n + 1

/-- Element `i` of `np.linspace a b num`: evenly spaced points from `a` to `b`
inclusive; a single-point linspace is `[a]`. -/
def linspace (a b : ℚ) (num i : ℕ) : ℚ :=
  if num ≤ 1 then a else a + (b - a) * i / ((num - 1 : ℕ) : ℚ)

/-- Location-generation policy, mirroring
`FixedLocation | GridLocation | UniformRandomLocation | NormalRandomLocation`
from `config_schema.py`.  An area is a pair of (latitude, longitude) corners. -/
inductive LocationPolicy where
  | fixedLoc (latitude longitude : ℚ)
  | uniformRandomLoc (area : (ℚ × ℚ) × (ℚ × ℚ))
  | normalRandomLoc (latitude longitude latitude_deviation longitude_deviation : ℚ)
  | gridLoc (area : (ℚ × ℚ) × (ℚ × ℚ))
deriving DecidableEq

/-- Oracle draws consumed by `sample_location` (one per axis). -/
structure LocationDraws where
  latitude_draw : ℚ
  longitude_draw : ℚ
deriving DecidableEq

/-- Embedding of `sample_location` (configuration_value_sampler.py lines 33-76).
Uniform and normal draws are resolved through the oracle; the grid branch reads
flattened `np.meshgrid` output at `index`: with side length `n`, latitude varies
fastest (`index % n`) and longitude slowest (`index / n`). -/
def sample_location (config : LocationPolicy) (index max_index : ℕ)
    (d : LocationDraws) : ℚ × ℚ :=
  match config with
  | .fixedLoc lat lon => (lat, lon)
  | .uniformRandomLoc _ => (d.latitude_draw, d.longitude_draw)
  | .normalRandomLoc _ _ _ _ =>
      (wrap_latitude d.latitude_draw, wrap_longitude d.longitude_draw)
  | .gridLoc area =>
      let n := ceil_sqrt max_index
      (linspace area.1.1 area.2.1 n (index % n),
       linspace area.1.2 area.2.2 n (index / n))

/-- C4: Latitude wraparound in sample_location for the NormalRandom policy: a
raw Gaussian latitude draw of 91 is wrapped to -89, a draw of -91 is wrapped to
89, and any draw already within [-90, 90] is returned unchanged. -/
theorem latitude_wraparound_modular_reflection :
    wrap_latitude 91 = -89 ∧ wrap_latitude (-91) = 89 ∧
      ∀ lat : ℚ, -90 ≤ lat → lat ≤ 90 → wrap_latitude lat = lat := by
  refine ⟨?_, ?_, ?_⟩
  · have h1 : ⌊(91 : ℚ) / 90⌋ = 1 := by norm_num [Int.floor_eq_iff]
    norm_num [wrap_latitude, pymod, h1]
  · have h1 : ⌊(-91 : ℚ) / -90⌋ = 1 := by norm_num [Int.floor_eq_iff]
    norm_num [wrap_latitude, pymod, h1]
  · intro lat h1 h2
    unfold wrap_latitude
    rw [if_neg (by linarith), if_neg (by linarith)]

/-- Witness for C4: a draw inside the valid band, here 45, is unchanged. -/
theorem latitude_wraparound_modular_reflection_witness :
    (-90 : ℚ) ≤ 45 ∧ (45 : ℚ) ≤ 90 ∧ wrap_latitude 45 = 45 :=
  ⟨by norm_num, by norm_num,
    latitude_wraparound_modular_reflection.2.2 45 (by norm_num) (by norm_num)⟩

/-- C8: Grid placement: for max_index=4 and an area spanning the unit square,
the Grid policy maps indices 0, 1, 2, 3 to four pairwise-distinct lattice
points. -/
theorem grid_placement_four_distinct_points :
    (sample_location (.gridLoc ((0, 0), (1, 1))) 0 4 ⟨0, 0⟩ ≠
       sample_location (.gridLoc ((0, 0), (1, 1))) 1 4 ⟨0, 0⟩) ∧
    (sample_location (.gridLoc ((0, 0), (1, 1))) 0 4 ⟨0, 0⟩ ≠
       sample_location (.gridLoc ((0, 0), (1, 1))) 2 4 ⟨0, 0⟩) ∧
    (sample_location (.gridLoc ((0, 0), (1, 1))) 0 4 ⟨0, 0⟩ ≠
       sample_location (.gridLoc ((0, 0), (1, 1))) 3 4 ⟨0, 0⟩) ∧
    (sample_location (.gridLoc ((0, 0), (1, 1))) 1 4 ⟨0, 0⟩ ≠
       sample_location (.gridLoc ((0, 0), (1, 1))) 2 4 ⟨0, 0⟩) ∧
    (sample_location (.gridLoc ((0, 0), (1, 1))) 1 4 ⟨0, 0⟩ ≠
       sample_location (.gridLoc ((0, 0), (1, 1))) 3 4 ⟨0, 0⟩) ∧
    (sample_location (.gridLoc ((0, 0), (1, 1))) 2 4 ⟨0, 0⟩ ≠
       sample_location (.gridLoc ((0, 0), (1, 1))) 3 4 ⟨0, 0⟩) := by
  have h2 : ceil_sqrt 4 = 2 := by norm_num [ceil_sqrt]
  refine ⟨?_, ?_, ?_, ?_, ?_, ?_⟩ <;>
    simp only [sample_location, h2, linspace, Prod.ext_iff, not_and] <;>
    norm_num [Prod.ext_iff, Prod.fst_zero, Prod.snd_zero]

namespace Skewed

/-- Fields of `SkewedClientSimulationConfig` (config_schema.py lines 131-180)
that `SkewedSimulationClient` reads.  Optional fields are `Option`; `None`
disables the corresponding skew. -/
structure Config where
  day_squeeze : ℚ
  bias_generation : Option GenPolicy
  bias : Option ℚ
  noise_generation : Option GenPolicy
  impulse_noise_chance : Option ℚ
  impulse_generation : GenPolicy
  skipped_measurement_chance : Option ℚ
  dropout_chance : Option ℚ
  dropout_period : GenPolicy
  value_retain_chance : Option ℚ
  value_retain_period : GenPolicy
  daily_bias_generation : Option GenPolicy
  positive_daytime_bias_impact_generation : Option GenPolicy
  positive_daytime_bias_impact : Option ℚ
deriving DecidableEq

/-- Mutable per-client runtime state of `SkewedSimulationClient`
(skewed_client.py lines 19-27): per-sensor window end times and retained
values as partial maps, plus the day-rollover detector state. -/
structure State where
  dropout_end_time : ℕ → Option ℚ
  value_retention_end_time : ℕ → Option ℚ
  retained_values : ℕ → Option ℚ
  last_day_age : ℚ
  daily_bias : ℚ

/-- Oracle values for every random draw the per-sensor loop body may perform,
in source order.  `dropout_period_draw` and `retain_period_draw` feed
`sample_value` for the respective period policies. -/
structure SensorDraws where
  dropout_roll : ℚ
  dropout_period_draw : ℚ
  skip_roll : ℚ
  daytime_offset : ℚ
  daytime_spread : ℚ
  noise_draw : ℚ
  impulse_roll : ℚ
  impulse_draw : ℚ
  impulse_sign_roll : ℚ
  retain_roll : ℚ
  retain_period_draw : ℚ
deriving DecidableEq

/-- Oracle values for one whole `get_updates` call: the daily-bias draw plus a
family of per-sensor draws. -/
structure CallDraws where
  daily_bias_draw : ℚ
  sensor : ℕ → SensorDraws

/-- Skip check (skewed_client.py lines 95-98): with a configured chance, a
single reading is suppressed when the uniform roll is at most the chance. -/
def skip_suppressed (cfg : Config) (d : SensorDraws) : Bool :=
  match cfg.skipped_measurement_chance with
  | none => false
  | some chance => decide (d.skip_roll ≤ chance)

/-- Dropout and skip suppression (skewed_client.py lines 83-98).  Returns
whether the sensor is suppressed this cycle together with the updated state:
inside an active dropout window the sensor is suppressed; otherwise a roll at
most `dropout_chance` starts a new window ending at `now + sampled period` and
suppresses; otherwise the skip check applies. -/
def dropout_skip_step (cfg : Config) (s : State) (now : ℚ) (d : SensorDraws)
    (i : ℕ) : Bool × State :=
  match cfg.dropout_chance with
  | none => (skip_suppressed cfg d, s)
  | some chance =>
    if now < (s.dropout_end_time i).getD (now - 1) then (true, s)
    else if d.dropout_roll ≤ chance then
      (true,
       { s with dropout_end_time := fun j =>
          if j = i then some (now + sample_value cfg.dropout_period d.dropout_period_draw)
          else s.dropout_end_time j })
    else (skip_suppressed cfg d, s)

/-- Downward parabola of day-progress (skewed_client.py line 110):
`-((day_age + offset) * spread - spread / 2) ^ 2 + 1`. -/
def daytime_parabola (day_age offset spread : ℚ) : ℚ :=
  -((day_age + offset) * spread - spread / 2) ^ 2 + 1

/-- Daytime-bias term added to the reading (skewed_client.py lines 110-112):
`value * (max 0 parabola * strength)` where `value` is the reading after the
daily and static biases were added. -/
def daytime_bias_term (strength day_age offset spread value : ℚ) : ℚ :=
  value * (max 0 (daytime_parabola day_age offset spread) * strength)

/-- Value pipeline for one surviving reading (skewed_client.py lines 100-123):
daily bias, static bias, daytime bias, additive noise, impulse noise. -/
def skew_value (cfg : Config) (daily_bias day_age : ℚ) (d : SensorDraws)
    (value0 : ℚ) : ℚ :=
  let value1 := value0 + daily_bias
  let value2 :=
    match cfg.bias with
    | none => value1
    | some b => value1 + b
  let value3 :=
    match cfg.positive_daytime_bias_impact with
    | none => value2
    | some strength =>
        value2 + daytime_bias_term strength day_age d.daytime_offset d.daytime_spread value2
  let value4 :=
    match cfg.noise_generation with
    | none => value3
    | some g => value3 + sample_value g d.noise_draw
  match cfg.impulse_noise_chance with
  | none => value4
  | some chance =>
      if d.impulse_roll ≤ chance then
        value4 + sample_value cfg.impulse_generation d.impulse_draw *
          (if d.impulse_sign_roll ≤ 1 / 2 then 1 else -1)
      else value4

/-- Value retention (skewed_client.py lines 125-134).  Inside an active
retention window line 127 stores the retained value into the mapping, but the
unconditional write at line 134 immediately overwrites it with the freshly
computed value, so the pair returned for the sensor is always
`(timestamp, value)`; a new window additionally snapshots `value` and the
window end into the state. -/
def retention_step (cfg : Config) (s : State) (now : ℚ) (d : SensorDraws)
    (i : ℕ) (timestamp value : ℚ) : (ℚ × ℚ) × State :=
  match cfg.value_retain_chance with
  | none => ((timestamp, value), s)
  | some chance =>
    if now < (s.value_retention_end_time i).getD (now - 1) then
      ((timestamp, value), s)
    else if d.retain_roll ≤ chance then
      ((timestamp, value),
       { s with
          value_retention_end_time := fun j =>
            if j = i then some (now + sample_value cfg.value_retain_period d.retain_period_draw)
            else s.value_retention_end_time j,
          retained_values := fun j =>
            if j = i then some value else s.retained_values j })
    else ((timestamp, value), s)

/-- Loop body of `get_updates` for one sensor entry (skewed_client.py lines
81-134): `none` means the sensor is dropped from the returned mapping. -/
def process_sensor (cfg : Config) (s : State) (now day_age : ℚ)
    (d : SensorDraws) (i : ℕ) (timestamp value : ℚ) :
    Option (ℚ × ℚ) × State :=
  let step1 := dropout_skip_step cfg s now d i
  if step1.1 then (none, step1.2)
  else
    let value1 := skew_value cfg step1.2.daily_bias day_age d value
    let step2 := retention_step cfg step1.2 now d i timestamp value1
    (some step2.1, step2.2)

/-- Iteration of the loop body over the update mapping, in iteration order,
followed by the deletion of the dropped sensors (skewed_client.py lines 81-137). -/
def run_sensors (cfg : Config) (now day_age : ℚ) (draws : CallDraws) :
    List (ℕ × ℚ × ℚ) → State → List (ℕ × ℚ × ℚ) × State
  | [], s => ([], s)
  | (i, timestamp, value) :: rest, s =>
      let step := process_sensor cfg s now day_age (draws.sensor i) i timestamp value
      let tail := run_sensors cfg now day_age draws rest step.2
      match step.1 with
      | none => tail
      | some (t, v) => ((i, t, v) :: tail.1, tail.2)

/-- Embedding of `SkewedSimulationClient.get_updates` (skewed_client.py lines
46-140).  `updates` is the wrapped archetype's mapping as an ordered
association list with distinct keys; `now` is the wall-clock time in seconds
and `seconds_since_midnight` the elapsed seconds since local midnight at
`now`, from which the day-progress (lines 72-76) and the daily-bias rollover
(lines 78-79) are computed. -/
def get_updates (cfg : Config) (s : State) (now seconds_since_midnight : ℚ)
    (draws : CallDraws) (updates : List (ℕ × ℚ × ℚ)) :
    List (ℕ × ℚ × ℚ) × State :=
  let day_total_seconds : ℚ := 86400
  let squeeze_factor := day_total_seconds / cfg.day_squeeze
  let day_age := pymod seconds_since_midnight squeeze_factor / squeeze_factor
  let daily_bias :=
    match cfg.daily_bias_generation with
    | some g =>
        if day_age < s.last_day_age then sample_value g draws.daily_bias_draw
        else s.daily_bias
    | none => s.daily_bias
  let result := run_sensors cfg now day_age draws updates { s with daily_bias := daily_bias }
  (result.1, { result.2 with last_day_age := day_age })

end Skewed

namespace Skewed

/-- Suppression by dropout or skip does not change the dropout window of a
different sensor. -/
theorem dropout_skip_step_other (cfg : Config) (s : State) (now : ℚ)
    (d : SensorDraws) (j i : ℕ) (hne : j ≠ i) :
    ((dropout_skip_step cfg s now d j).2).dropout_end_time i =
      s.dropout_end_time i := by
  unfold dropout_skip_step
  rcases cfg.dropout_chance with _ | c
  · rfl
  · simp only []
    split_ifs <;> simp [Ne.symm hne]

/-- Value retention never changes any dropout window. -/
theorem retention_step_dropout_end (cfg : Config) (s : State) (now : ℚ)
    (d : SensorDraws) (i : ℕ) (timestamp value : ℚ) :
    ((retention_step cfg s now d i timestamp value).2).dropout_end_time =
      s.dropout_end_time := by
  unfold retention_step
  rcases cfg.value_retain_chance with _ | c
  · rfl
  · simp only []
    split_ifs <;> rfl

/-- Value retention always returns the freshly computed pair (the retained
value written at skewed_client.py line 127 is overwritten by line 134). -/
theorem retention_step_fst (cfg : Config) (s : State) (now : ℚ)
    (d : SensorDraws) (i : ℕ) (timestamp value : ℚ) :
    (retention_step cfg s now d i timestamp value).1 = (timestamp, value) := by
  unfold retention_step
  rcases cfg.value_retain_chance with _ | c
  · rfl
  · simp only []
    split_ifs <;> rfl

/-- Processing one sensor entry does not change the dropout window of a
different sensor. -/
theorem process_sensor_dropout_end_other (cfg : Config) (s : State)
    (now day_age : ℚ) (d : SensorDraws) (j i : ℕ) (hne : j ≠ i)
    (timestamp value : ℚ) :
    ((process_sensor cfg s now day_age d j timestamp value).2).dropout_end_time i =
      s.dropout_end_time i := by
  unfold process_sensor
  by_cases hb : (dropout_skip_step cfg s now d j).1 <;>
    simp [hb, retention_step_dropout_end, dropout_skip_step_other cfg s now d j i hne]

/-- Inside an active dropout window a sensor is removed by every loop pass and
its window end is left unchanged. -/
theorem run_sensors_dropout_absent (cfg : Config) (now day_age : ℚ)
    (draws : CallDraws) (i : ℕ) (c e : ℚ)
    (hc : cfg.dropout_chance = some c) (hlt : now < e) :
    ∀ (l : List (ℕ × ℚ × ℚ)) (s : State), s.dropout_end_time i = some e →
      (∀ t v, (i, t, v) ∉ (run_sensors cfg now day_age draws l s).1) ∧
      (run_sensors cfg now day_age draws l s).2.dropout_end_time i = some e := by
  intro l
  induction l with
  | nil => intro s hs; simpa [run_sensors] using hs
  | cons hd tl ih =>
    obtain ⟨j, ts, v⟩ := hd
    intro s hs
    by_cases hji : j = i
    · subst hji
      have hstep : process_sensor cfg s now day_age (draws.sensor j) j ts v = (none, s) := by
        unfold process_sensor dropout_skip_step
        simp [hc, hs, hlt]
      simpa [run_sensors, hstep] using ih s hs
    · have hpres := process_sensor_dropout_end_other cfg s now day_age
        (draws.sensor j) j i hji ts v
      rcases hres : process_sensor cfg s now day_age (draws.sensor j) j ts v with ⟨r, s2⟩
      have hs2 : s2.dropout_end_time i = some e := by
        rw [hres] at hpres
        exact hpres.trans hs
      have htail := ih s2 hs2
      rcases r with _ | ⟨t2, v2⟩
      · simpa [run_sensors, hres] using htail
      · refine ⟨?_, by simpa [run_sensors, hres] using htail.2⟩
        intro t v2x hmem
        simp only [run_sensors, hres] at hmem
        rcases List.mem_cons.1 hmem with h | h
        · exact hji (by injection h with h1 _; exact h1.symm) |>.elim
        · exact htail.1 t v2x h

/-- Once a sensor passes the dropout and skip checks its entry is returned
with its original timestamp. -/
theorem run_sensors_present (cfg : Config) (now day_age : ℚ)
    (draws : CallDraws) (i : ℕ) (c e ts v : ℚ)
    (hc : cfg.dropout_chance = some c)
    (hroll : ¬ (draws.sensor i).dropout_roll ≤ c)
    (hskip : skip_suppressed cfg (draws.sensor i) = false)
    (hge : e ≤ now) :
    ∀ (l : List (ℕ × ℚ × ℚ)) (s : State), (l.map Prod.fst).Nodup →
      (i, ts, v) ∈ l → s.dropout_end_time i = some e →
      ∃ v2, (i, ts, v2) ∈ (run_sensors cfg now day_age draws l s).1 := by
  intro l
  induction l with
  | nil => intro s _ hmem _; exact absurd hmem (List.not_mem_nil _)
  | cons hd tl ih =>
    obtain ⟨j, tj, vj⟩ := hd
    intro s hnodup hmem hs
    rcases List.mem_cons.1 hmem with hhd | htl
    · injection hhd with h1 h23
      injection h23 with h2 h3
      subst h1; subst h2; subst h3
      have hfalse : dropout_skip_step cfg s now (draws.sensor i) i = (false, s) := by
        unfold dropout_skip_step
        simp [hc, hs, not_lt.2 hge, hroll, hskip]
      refine ⟨skew_value cfg s.daily_bias day_age (draws.sensor i) v, ?_⟩
      simp [run_sensors, process_sensor, hfalse, retention_step_fst]
    · simp only [List.map_cons, List.nodup_cons] at hnodup
      have hji : j ≠ i := by
        intro h
        exact hnodup.1 (h ▸ List.mem_map_of_mem Prod.fst htl)
      have hpres := process_sensor_dropout_end_other cfg s now day_age
        (draws.sensor j) j i hji tj vj
      rcases hres : process_sensor cfg s now day_age (draws.sensor j) j tj vj with ⟨r, s2⟩
      rw [hres] at hpres
      obtain ⟨v2, hv2⟩ := ih s2 hnodup.2 htl (hpres.trans hs)
      rcases r with _ | ⟨t2, x2⟩
      · exact ⟨v2, by simpa [run_sensors, hres] using hv2⟩
      · exact ⟨v2, by simp [run_sensors, hres]; right; exact hv2⟩

end Skewed

/-- C3 amended: once a dropout window for a sensor ends at time t+d, the
sensor is absent from the mapping returned by every get_updates call with now
in [t, t+d); for the first call at or after t+d the sensor is present again
provided the wrapped archetype reports it, unless a new dropout or a
measurement skip triggers then. -/
theorem dropout_window_invariant (cfg : Skewed.Config) (s : Skewed.State)
    (now ssm : ℚ) (draws : Skewed.CallDraws) (updates : List (ℕ × ℚ × ℚ))
    (i : ℕ) (c e : ℚ) (hc : cfg.dropout_chance = some c)
    (hs : s.dropout_end_time i = some e) :
    (now < e → ∀ t v,
      (i, t, v) ∉ (Skewed.get_updates cfg s now ssm draws updates).1) ∧
    (e ≤ now → (updates.map Prod.fst).Nodup →
      ∀ ts v, (i, ts, v) ∈ updates →
      ¬ (draws.sensor i).dropout_roll ≤ c →
      Skewed.skip_suppressed cfg (draws.sensor i) = false →
      ∃ v2, (i, ts, v2) ∈ (Skewed.get_updates cfg s now ssm draws updates).1) := by
  constructor
  · intro hlt t v
    simp only [Skewed.get_updates]
    refine (Skewed.run_sensors_dropout_absent cfg now _ draws i c e hc hlt
      updates _ ?_).1 t v
    exact hs
  · intro hge hnodup ts v hmem hroll hskip
    simp only [Skewed.get_updates]
    refine Skewed.run_sensors_present cfg now _ draws i c e ts v hc hroll hskip
      hge updates _ hnodup hmem ?_
    exact hs

/-- Concrete skew configuration with a configured dropout chance of 0 and a
certain measurement skip (chance 1); all other skews disabled. -/
def dropout_counter_cfg : Skewed.Config where
  day_squeeze := 1
  bias_generation := none
  bias := none
  noise_generation := none
  impulse_noise_chance := none
  impulse_generation := .fixed 0
  skipped_measurement_chance := some 1
  dropout_chance := some 0
  dropout_period := .fixed 300
  value_retain_chance := none
  value_retain_period := .fixed 300
  daily_bias_generation := none
  positive_daytime_bias_impact_generation := none
  positive_daytime_bias_impact := none

/-- Concrete skew state whose dropout window for sensor 0 ends at time 5. -/
def dropout_counter_state : Skewed.State where
  dropout_end_time := fun j => if j = 0 then some 5 else none
  value_retention_end_time := fun _ => none
  retained_values := fun _ => none
  last_day_age := 0
  daily_bias := 0

/-- Concrete oracle: the dropout roll (1) is above the chance (0), so no new
dropout triggers; the skip roll (0) is below the skip chance (1). -/
def dropout_counter_draws : Skewed.CallDraws where
  daily_bias_draw := 0
  sensor := fun _ =>
    { dropout_roll := 1, dropout_period_draw := 300, skip_roll := 0,
      daytime_offset := 0, daytime_spread := 2, noise_draw := 0,
      impulse_roll := 1, impulse_draw := 0, impulse_sign_roll := 1,
      retain_roll := 1, retain_period_draw := 300 }

/-- Counterexample to C3 as stated: sensor 0's dropout window ends at time 5,
the wrapped archetype reports the sensor, and at the first call at the window
end (now = 5) no new dropout triggers — the dropout window is unchanged — yet
the sensor is absent from the returned mapping, because the measurement skip
suppresses it. -/
theorem dropout_reappearance_counterexample :
    (Skewed.get_updates dropout_counter_cfg dropout_counter_state 5 0
        dropout_counter_draws [(0, 100, 7)]).1 = [] ∧
    (Skewed.get_updates dropout_counter_cfg dropout_counter_state 5 0
        dropout_counter_draws [(0, 100, 7)]).2.dropout_end_time 0 = some 5 := by
  have h : Skewed.get_updates dropout_counter_cfg dropout_counter_state 5 0
      dropout_counter_draws [(0, 100, 7)] =
      (([] : List (ℕ × ℚ × ℚ)),
        { dropout_counter_state with last_day_age := 0 }) := by
    norm_num [Skewed.get_updates, Skewed.run_sensors, Skewed.process_sensor,
      Skewed.dropout_skip_step, Skewed.skip_suppressed, Skewed.retention_step,
      Skewed.skew_value, dropout_counter_cfg, dropout_counter_state,
      dropout_counter_draws, pymod, sample_value]
  rw [h]
  exact ⟨rfl, rfl⟩

/-- Witness for C3 (window-absence part at a concrete input): inside the
window, at now = 4 < 5, sensor 0 is absent from the returned mapping. -/
theorem dropout_window_invariant_witness :
    dropout_counter_cfg.dropout_chance = some 0 ∧
    dropout_counter_state.dropout_end_time 0 = some 5 ∧
    ∀ t v, (0, t, v) ∉ (Skewed.get_updates dropout_counter_cfg
      dropout_counter_state 4 0 dropout_counter_draws [(0, 100, 7)]).1 :=
  ⟨rfl, rfl, fun t v =>
    (dropout_window_invariant dropout_counter_cfg dropout_counter_state 4 0
      dropout_counter_draws [(0, 100, 7)] 0 0 5 rfl rfl).1 (by norm_num) t v⟩

namespace Skewed

/-- With every optional skew setting disabled and a zero daily bias, each loop
pass returns every entry unchanged and leaves the state unchanged. -/
theorem run_sensors_identity (cfg : Config) (now day_age : ℚ)
    (draws : CallDraws)
    (hdrop : cfg.dropout_chance = none)
    (hskip : cfg.skipped_measurement_chance = none)
    (hbias : cfg.bias = none)
    (himpact : cfg.positive_daytime_bias_impact = none)
    (hnoise : cfg.noise_generation = none)
    (himpulse : cfg.impulse_noise_chance = none)
    (hretain : cfg.value_retain_chance = none) :
    ∀ (l : List (ℕ × ℚ × ℚ)) (s : State), s.daily_bias = 0 →
      run_sensors cfg now day_age draws l s = (l, s) := by
  intro l
  induction l with
  | nil => intro s _; rfl
  | cons hd tl ih =>
    obtain ⟨i, ts, v⟩ := hd
    intro s hdb
    have hstep : process_sensor cfg s now day_age (draws.sensor i) i ts v =
        (some (ts, v), s) := by
      unfold process_sensor dropout_skip_step skip_suppressed skew_value
        retention_step
      simp [hdrop, hskip, hbias, himpact, hnoise, himpulse, hretain, hdb]
    simp [run_sensors, hstep, ih s hdb]

end Skewed

/-- C10: if every optional skew setting (dropout_chance,
skipped_measurement_chance, daily_bias_generation, bias and bias_generation,
positive_daytime_bias_impact and its generation, noise_generation,
impulse_noise_chance, value_retain_chance) is None, then get_updates returns
exactly the wrapped archetype's update mapping — the same sensor set,
timestamps and values — and the daily bias stays zero. -/
theorem skew_identity_when_all_settings_none (cfg : Skewed.Config)
    (s : Skewed.State) (now ssm : ℚ) (draws : Skewed.CallDraws)
    (updates : List (ℕ × ℚ × ℚ))
    (hdrop : cfg.dropout_chance = none)
    (hskip : cfg.skipped_measurement_chance = none)
    (hdaily : cfg.daily_bias_generation = none)
    (hbias : cfg.bias = none)
    (hbiasgen : cfg.bias_generation = none)
    (himpact : cfg.positive_daytime_bias_impact = none)
    (himpactgen : cfg.positive_daytime_bias_impact_generation = none)
    (hnoise : cfg.noise_generation = none)
    (himpulse : cfg.impulse_noise_chance = none)
    (hretain : cfg.value_retain_chance = none)
    (hdb : s.daily_bias = 0) :
    (Skewed.get_updates cfg s now ssm draws updates).1 = updates ∧
    (Skewed.get_updates cfg s now ssm draws updates).2.daily_bias = 0 := by
  have hrun := Skewed.run_sensors_identity cfg now
    (pymod ssm (86400 / cfg.day_squeeze) / (86400 / cfg.day_squeeze)) draws
    hdrop hskip hbias himpact hnoise himpulse hretain updates
    { s with daily_bias := s.daily_bias } hdb
  simp only [Skewed.get_updates, hdaily]
  rw [hrun]
  exact ⟨rfl, hdb⟩

/-- Concrete all-disabled skew configuration for the C10 witness. -/
def identity_cfg : Skewed.Config where
  day_squeeze := 1
  bias_generation := none
  bias := none
  noise_generation := none
  impulse_noise_chance := none
  impulse_generation := .fixed 0
  skipped_measurement_chance := none
  dropout_chance := none
  dropout_period := .fixed 300
  value_retain_chance := none
  value_retain_period := .fixed 300
  daily_bias_generation := none
  positive_daytime_bias_impact_generation := none
  positive_daytime_bias_impact := none

/-- Concrete initial skew state for the C10 witness. -/
def identity_state : Skewed.State where
  dropout_end_time := fun _ => none
  value_retention_end_time := fun _ => none
  retained_values := fun _ => none
  last_day_age := 86400
  daily_bias := 0

/-- Concrete oracle draws for the C10 witness; all values are ignored because
every skew setting is disabled. -/
def identity_draws : Skewed.CallDraws where
  daily_bias_draw := 9
  sensor := fun _ =>
    { dropout_roll := 0, dropout_period_draw := 300, skip_roll := 0,
      daytime_offset := 0, daytime_spread := 2, noise_draw := 4,
      impulse_roll := 0, impulse_draw := 10, impulse_sign_roll := 0,
      retain_roll := 0, retain_period_draw := 300 }

/-- Witness for C10: with all skew settings disabled, a concrete two-sensor
update mapping is returned unchanged. -/
theorem skew_identity_when_all_settings_none_witness :
    (Skewed.get_updates identity_cfg identity_state 5 0 identity_draws
        [(0, 100, 7), (3, 101, -2)]).1 = [(0, 100, 7), (3, 101, -2)] :=
  (skew_identity_when_all_settings_none identity_cfg identity_state 5 0
    identity_draws [(0, 100, 7), (3, 101, -2)]
    rfl rfl rfl rfl rfl rfl rfl rfl rfl rfl rfl).1

/-- Counterexample to C6 as stated: with realizable per-call draws
(offset 0 in [-0.1, 0.1], spread 2 in [2, 15]), strength 1 and a reading whose
current value is -1, the daytime-bias term added to the value is negative. -/
theorem daytime_bias_negative_counterexample :
    Skewed.daytime_bias_term 1 (1 / 2) 0 2 (-1) < 0 := by
  norm_num [Skewed.daytime_bias_term, Skewed.daytime_parabola]

/-- C6 amended: the daytime-bias term is the current (post daily/static bias)
value times `max 0 parabola` times the frozen strength; it is non-negative
whenever that value and the strength are non-negative, and it is exactly 0
whenever the downward parabola of day-progress evaluates negative. -/
theorem daytime_bias_term_sign (strength day_age offset spread value : ℚ) :
    (0 ≤ value → 0 ≤ strength →
      0 ≤ Skewed.daytime_bias_term strength day_age offset spread value) ∧
    (Skewed.daytime_parabola day_age offset spread < 0 →
      Skewed.daytime_bias_term strength day_age offset spread value = 0) := by
  constructor
  · intro hv hstr
    exact mul_nonneg hv (mul_nonneg (le_max_left 0 _) hstr)
  · intro hp
    unfold Skewed.daytime_bias_term
    rw [max_eq_left hp.le, zero_mul, mul_zero]

/-- Witness for C6: both parts applied at a concrete input; the parabola at
day_age 2, offset 0, spread 2 is negative, so the term is 0 there. -/
theorem daytime_bias_term_sign_witness :
    (0 : ℚ) ≤ 5 ∧ (0 : ℚ) ≤ 1 ∧
    0 ≤ Skewed.daytime_bias_term 1 (1 / 2) 0 2 5 ∧
    Skewed.daytime_parabola 2 0 2 < 0 ∧
    Skewed.daytime_bias_term 1 2 0 2 5 = 0 :=
  ⟨by norm_num, by norm_num,
    (daytime_bias_term_sign 1 (1 / 2) 0 2 5).1 (by norm_num) (by norm_num),
    by norm_num [Skewed.daytime_parabola],
    (daytime_bias_term_sign 1 2 0 2 5).2
      (by norm_num [Skewed.daytime_parabola])⟩

/-- Concrete skew configuration for C1: only value retention is configured. -/
def retention_cfg : Skewed.Config where
  day_squeeze := 1
  bias_generation := none
  bias := none
  noise_generation := none
  impulse_noise_chance := none
  impulse_generation := .fixed 0
  skipped_measurement_chance := none
  dropout_chance := none
  dropout_period := .fixed 300
  value_retain_chance := some (1 / 2)
  value_retain_period := .fixed 300
  daily_bias_generation := none
  positive_daytime_bias_impact_generation := none
  positive_daytime_bias_impact := none

/-- Concrete skew state for C1: sensor 0 has an active retention window ending
at time 10 with retained value 42. -/
def retention_state : Skewed.State where
  dropout_end_time := fun _ => none
  value_retention_end_time := fun j => if j = 0 then some 10 else none
  retained_values := fun j => if j = 0 then some 42 else none
  last_day_age := 0
  daily_bias := 0

/-- Concrete oracle draws for C1. -/
def retention_draws : Skewed.CallDraws where
  daily_bias_draw := 0
  sensor := fun _ =>
    { dropout_roll := 1, dropout_period_draw := 300, skip_roll := 1,
      daytime_offset := 0, daytime_spread := 2, noise_draw := 0,
      impulse_roll := 1, impulse_draw := 0, impulse_sign_roll := 1,
      retain_roll := 1, retain_period_draw := 300 }

/-- C1 evaluated at the failing input: at now = 5, inside sensor 0's retention
window [_, 10) whose retained value is 42, get_updates returns the freshly
computed value 7 — the write of the retained value at skewed_client.py line
127 is unconditionally overwritten by line 134 — and 7 is not the retained 42,
so the retained value is never returned. -/
theorem retention_overwritten_at_failing_input :
    (Skewed.get_updates retention_cfg retention_state 5 0 retention_draws
        [(0, 100, 7)]).1 = [(0, 100, 7)] ∧
    retention_state.retained_values 0 = some 42 ∧
    (7 : ℚ) ≠ 42 := by
  refine ⟨?_, rfl, by norm_num⟩
  norm_num [Skewed.get_updates, Skewed.run_sensors, Skewed.process_sensor,
    Skewed.dropout_skip_step, Skewed.skip_suppressed, Skewed.retention_step,
    Skewed.skew_value, retention_cfg, retention_state, retention_draws,
    pymod, sample_value]

/-- Python's built-in `round` to an integer: nearest integer, ties to even. -/
def round_half_even (x : ℚ) : ℤ :=
  if x - ⌊x⌋ < 1 / 2 then ⌊x⌋
  else if 1 / 2 < x - ⌊x⌋ then ⌊x⌋ + 1
  else if ⌊x⌋ % 2 = 0 then ⌊x⌋ else ⌊x⌋ + 1

/-- Python's `round(x, ndigits)` for a non-negative digit count. -/
def pyround (x : ℚ) (ndigits : ℕ) : ℚ :=
  (round_half_even (x * 10 ^ ndigits) : ℚ) / 10 ^ ndigits

/-- Oracle values for every random draw a client constructor may perform:
the two skew lazy-field draws (skewed_client.py lines 34-42) and the
accuracy/peak/min/max draws (diurnal_approximation_client.py lines 25-49). -/
structure InitDraws where
  bias_draw : ℚ
  daytime_impact_draw : ℚ
  accuracy_roll : ℚ
  accuracy_draw : ℚ
  peak_time_draw : ℚ
  min_temperature_draw : ℚ
  max_temperature_draw : ℚ
deriving DecidableEq

namespace Diurnal

/-- Fields of `DiurnalApproximationClientSimulationConfig` as read by
diurnal_approximation_client.py.  The class definition itself is not among
the sources (config_schema.py does not declare it although the client module
imports it), so the field list is reconstructed from its uses in that module
and §4.3 of the specification. -/
structure Config where
  sensor_accuracy : Option ℚ
  sensor_undefined_accuracy_chance : Option ℚ
  sensor_accuracy_generation : GenPolicy
  sensor_accuracy_decimals : ℕ
  peak_time : Option ℚ
  peak_time_generation : GenPolicy
  min_temperature : Option ℚ
  min_temperature_generation : GenPolicy
  max_temperature : Option ℚ
  max_temperature_generation : GenPolicy
  day_squeeze : ℚ
  equator_temperature_bias : ℚ
deriving DecidableEq

/-- Accuracy resolution of `DiurnalApproximationSimulationClient.__init__`
(diurnal_approximation_client.py lines 25-39), called when `sensor_accuracy`
is unset: if no undefined-accuracy chance is configured, or the uniform roll
is strictly above the chance, the -1 sentinel is assigned; otherwise the
accuracy is sampled, rounded and floored at 0. -/
def resolve_sensor_accuracy (cfg : Config) (roll accuracy_draw : ℚ) : ℚ :=
  match cfg.sensor_undefined_accuracy_chance with
  | none => -1
  | some chance =>
      if roll > chance then -1
      else
        max 0 (pyround (sample_value cfg.sensor_accuracy_generation accuracy_draw)
          cfg.sensor_accuracy_decimals)

/-- Lazy-field resolution of `DiurnalApproximationSimulationClient.__init__`
(diurnal_approximation_client.py lines 25-49): sensor accuracy, peak time and
min/max temperature are sampled only when still unset. -/
def resolve_init (d : InitDraws) (c : Config) : Config :=
  let c1 :=
    match c.sensor_accuracy with
    | some _ => c
    | none =>
        { c with
          sensor_accuracy := some (resolve_sensor_accuracy c d.accuracy_roll d.accuracy_draw) }
  let c2 :=
    match c1.peak_time with
    | some _ => c1
    | none => { c1 with peak_time := some (sample_value c1.peak_time_generation d.peak_time_draw) }
  let c3 :=
    match c2.min_temperature with
    | some _ => c2
    | none =>
        { c2 with
          min_temperature := some (sample_value c2.min_temperature_generation d.min_temperature_draw) }
  match c3.max_temperature with
  | some _ => c3
  | none =>
      { c3 with
        max_temperature := some (sample_value c3.max_temperature_generation d.max_temperature_draw) }

/-- Sine factor of the diurnal curve (diurnal_approximation_client.py line
71), parameterized over the sine function and the circle constant so the
definition stays executable. -/
def sin_curve {K : Type} [LinearOrderedField K] (sinf : K → K)
    (pi day_age peak_time : K) : K :=
  (sinf (day_age * 2 * pi - pi * (peak_time * 2 - 1 / 2)) + 1) / 2

/-- Ambient-temperature value generated by
`DiurnalApproximationSimulationClient.get_updates`
(diurnal_approximation_client.py lines 57-75) at the given day-progress. -/
def temperature_value {K : Type} [LinearOrderedField K] (sinf : K → K)
    (pi min_temperature max_temperature
    peak_time day_age latitude equator_temperature_bias : K) : K :=
  sin_curve sinf pi day_age peak_time * (max_temperature - min_temperature) +
    min_temperature + (1 - |latitude| / 90) * equator_temperature_bias

end Diurnal

/-- Concrete diurnal configuration for C5: undefined-accuracy chance 1/2,
accuracy generation fixed at 5, whole-number rounding. -/
def accuracy_cfg : Diurnal.Config where
  sensor_accuracy := none
  sensor_undefined_accuracy_chance := some (1 / 2)
  sensor_accuracy_generation := .fixed 5
  sensor_accuracy_decimals := 0
  peak_time := some (1 / 2)
  peak_time_generation := .fixed (1 / 2)
  min_temperature := some 0
  min_temperature_generation := .fixed 0
  max_temperature := some 10
  max_temperature_generation := .fixed 10
  day_squeeze := 1
  equator_temperature_bias := 0

/-- C5 evaluated at the failing input: with undefined-accuracy chance 1/2, a
roll of 1/4 falls within the chance, yet the code resolves the sampled
accuracy 5 instead of the -1 sentinel; a roll of 3/4 outside the chance
yields the sentinel.  The branches of diurnal_approximation_client.py lines
27-39 are inverted with respect to the claim. -/
theorem accuracy_chance_inverted_at_failing_input :
    (1 / 4 : ℚ) ≤ 1 / 2 ∧
    Diurnal.resolve_sensor_accuracy accuracy_cfg (1 / 4) 5 = 5 ∧
    Diurnal.resolve_sensor_accuracy accuracy_cfg (3 / 4) 5 = -1 ∧
    (5 : ℚ) ≠ -1 := by
  have h5 : ⌊(5 : ℚ)⌋ = 5 := by norm_num [Int.floor_eq_iff]
  refine ⟨by norm_num, ?_, ?_, by norm_num⟩ <;>
    norm_num [Diurnal.resolve_sensor_accuracy, accuracy_cfg, sample_value,
      pyround, round_half_even, h5]

/-- C9: with min_temperature=0, max_temperature=10, peak_time=0.5,
day_squeeze=1 (day-progress given directly) and equator_temperature_bias=0,
the generated temperature at day-progress 0.5 equals the curve maximum 10 and
at day-progress 0 equals the curve minimum 0, at every latitude. -/
theorem diurnal_noon_max_midnight_min (latitude : ℝ) :
    Diurnal.temperature_value Real.sin Real.pi 0 10 (1 / 2) (1 / 2) latitude 0 = 10 ∧
    Diurnal.temperature_value Real.sin Real.pi 0 10 (1 / 2) 0 latitude 0 = 0 := by
  unfold Diurnal.temperature_value Diurnal.sin_curve
  have h1 : (1 / 2 : ℝ) * 2 * Real.pi - Real.pi * (1 / 2 * 2 - 1 / 2) = Real.pi / 2 := by
    ring
  have h2 : (0 : ℝ) * 2 * Real.pi - Real.pi * (1 / 2 * 2 - 1 / 2) = -(Real.pi / 2) := by
    ring
  rw [h1, h2, Real.sin_neg, Real.sin_pi_div_two]
  constructor <;> ring

/-- Witness for C9: the theorem applied at the equator. -/
theorem diurnal_noon_max_midnight_min_witness :
    Diurnal.temperature_value Real.sin Real.pi 0 10 (1 / 2) (1 / 2) 0 0 = 10 ∧
    Diurnal.temperature_value Real.sin Real.pi 0 10 (1 / 2) 0 0 0 = 0 :=
  ⟨(diurnal_noon_max_midnight_min 0).1, (diurnal_noon_max_midnight_min 0).2⟩

namespace Skewed

/-- Lazy-field resolution of `SkewedSimulationClient.__init__`
(skewed_client.py lines 34-42): the static bias and the daytime-bias impact
are sampled only when unset and a generation policy is configured. -/
def resolve_init (d : InitDraws) (c : Config) : Config :=
  let c1 :=
    match c.bias, c.bias_generation with
    | none, some g => { c with bias := some (sample_value g d.bias_draw) }
    | _, _ => c
  match c1.positive_daytime_bias_impact, c1.positive_daytime_bias_impact_generation with
  | none, some g =>
      { c1 with positive_daytime_bias_impact := some (sample_value g d.daytime_impact_draw) }
  | _, _ => c1

/-- Resolution invariant established by `SkewedSimulationClient.__init__`: a
lazy field can only still be unset when its generation policy is absent. -/
def Resolved (c : Config) : Prop :=
  (c.bias = none → c.bias_generation = none) ∧
  (c.positive_daytime_bias_impact = none →
    c.positive_daytime_bias_impact_generation = none)

/-- Resolution leaves a resolved skew configuration unchanged: no already-set
lazy field is ever re-sampled. -/
theorem skewed_resolve_init_of_resolved (d : InitDraws) (c : Config)
    (h : Resolved c) : resolve_init d c = c := by
  obtain ⟨h1, h2⟩ := h
  unfold resolve_init
  rcases hb : c.bias with _ | b <;>
    rcases hi : c.positive_daytime_bias_impact with _ | im
  · simp [hb, hi, h1 hb, h2 hi]
  · simp [hb, hi, h1 hb]
  · simp [hb, hi, h2 hi]
  · simp [hb, hi]

/-- Freshly constructed skew configurations are resolved. -/
theorem skewed_resolve_init_is_resolved (d : InitDraws) (c : Config) :
    Resolved (resolve_init d c) := by
  unfold Resolved resolve_init
  rcases hb : c.bias with _ | b <;>
    rcases hbg : c.bias_generation with _ | bg <;>
    rcases hi : c.positive_daytime_bias_impact with _ | im <;>
    rcases hig : c.positive_daytime_bias_impact_generation with _ | ig <;>
    simp [hb, hbg, hi, hig]

end Skewed

namespace Diurnal

/-- Resolution invariant established by
`DiurnalApproximationSimulationClient.__init__`: every lazy field is set. -/
def Resolved (c : Config) : Prop :=
  c.sensor_accuracy ≠ none ∧ c.peak_time ≠ none ∧
    c.min_temperature ≠ none ∧ c.max_temperature ≠ none

/-- Resolution leaves a resolved diurnal configuration unchanged: no
already-set lazy field is ever re-sampled. -/
theorem diurnal_resolve_init_of_resolved (d : InitDraws) (c : Config)
    (h : Resolved c) : resolve_init d c = c := by
  obtain ⟨ha, hp, hmin, hmax⟩ := h
  obtain ⟨a, ha⟩ := Option.ne_none_iff_exists'.1 ha
  obtain ⟨p, hp⟩ := Option.ne_none_iff_exists'.1 hp
  obtain ⟨mn, hmin⟩ := Option.ne_none_iff_exists'.1 hmin
  obtain ⟨mx, hmax⟩ := Option.ne_none_iff_exists'.1 hmax
  simp [resolve_init, ha, hp, hmin, hmax]

/-- Freshly constructed diurnal configurations are resolved. -/
theorem diurnal_resolve_init_is_resolved (d : InitDraws) (c : Config) :
    Resolved (resolve_init d c) := by
  unfold Resolved resolve_init
  rcases ha : c.sensor_accuracy with _ | a <;>
    rcases hp : c.peak_time with _ | p <;>
    rcases hmin : c.min_temperature with _ | mn <;>
    rcases hmax : c.max_temperature with _ | mx <;>
    simp [ha, hp, hmin, hmax]

end Diurnal

/-- Archetype tags of the registry in simulation_class_lookup.py lines 20-26. -/
inductive ClientClass where
  | blank
  | coordinate_gradient
  | skewed_coordinate_gradient
  | diurnal_approximation
  | skewed_diurnal_approximation
deriving DecidableEq

/-- Runtime `ClientConfig` of a client as relevant to the simulation core:
the sampled location and trixel parameters frozen at generation time. -/
structure ClientConfig where
  latitude : ℚ
  longitude : ℚ
  k : ℚ
  max_depth : ℚ
deriving DecidableEq

/-- Per-client simulation configuration: the archetype tag, the generation
identity (client_index, max_client_index of ClientSimulationConfig in
config_schema.py lines 31-32) and the per-archetype field groups, flattening
the pydantic subclass hierarchy into one record. -/
structure ClientSimulationConfig where
  client_class : ClientClass
  client_index : ℕ
  max_client_index : ℕ
  skewed : Skewed.Config
  diurnal : Diurnal.Config
deriving DecidableEq

/-- Constructor-chain effect of instantiating the archetype named by the tag
on the simulation config: each class in the method-resolution order resolves
its own lazy fields (skewed_client.py lines 29-44,
diurnal_approximation_client.py lines 20-51); blank and coordinate-gradient
clients resolve nothing. -/
def client_init_config (cls : ClientClass) (d : InitDraws)
    (c : ClientSimulationConfig) : ClientSimulationConfig :=
  match cls with
  | .blank => c
  | .coordinate_gradient => c
  | .skewed_coordinate_gradient => { c with skewed := Skewed.resolve_init d c.skewed }
  | .diurnal_approximation => { c with diurnal := Diurnal.resolve_init d c.diurnal }
  | .skewed_diurnal_approximation =>
      { c with
        skewed := Skewed.resolve_init d c.skewed,
        diurnal := Diurnal.resolve_init d c.diurnal }

/-- Per-archetype resolution invariant after construction. -/
def config_resolved (cls : ClientClass) (c : ClientSimulationConfig) : Prop :=
  match cls with
  | .blank => True
  | .coordinate_gradient => True
  | .skewed_coordinate_gradient => Skewed.Resolved c.skewed
  | .diurnal_approximation => Diurnal.Resolved c.diurnal
  | .skewed_diurnal_approximation => Skewed.Resolved c.skewed ∧ Diurnal.Resolved c.diurnal

/-- Simulated client as persisted by the manager: the instantiated archetype
class together with the frozen `(_config, _client_simulation_config)` pair
(simulation_manager.py line 87). -/
structure SimulationClient where
  client_class : ClientClass
  config : ClientConfig
  client_simulation_config : ClientSimulationConfig
deriving DecidableEq

/-- Embedding of `SimulationManager.store` (simulation_manager.py lines
81-93): the ordered list of `(config, simulation config)` pairs written to
the pickle file. -/
def store (clients : List SimulationClient) :
    List (ClientConfig × ClientSimulationConfig) :=
  clients.map fun client => (client.config, client.client_simulation_config)

/-- Instantiation of the stored pairs performed by `SimulationManager.load`
(simulation_manager.py lines 70-75): each pair is rebuilt with the archetype
class looked up from the stored tag, the stored runtime config (so the
random-base generation path is skipped) and the constructor-resolved
simulation config. -/
def load_clients (pairs : List (ClientConfig × ClientSimulationConfig))
    (d : InitDraws) : List SimulationClient :=
  pairs.map fun p =>
    { client_class := p.2.client_class,
      config := p.1,
      client_simulation_config := client_init_config p.2.client_class d p.2 }

/-- Construction resolves exactly the archetype's lazy fields. -/
theorem client_init_config_resolved (cls : ClientClass) (d : InitDraws)
    (c : ClientSimulationConfig) :
    config_resolved cls (client_init_config cls d c) := by
  cases cls <;>
    simp [client_init_config, config_resolved,
      Skewed.skewed_resolve_init_is_resolved, Diurnal.diurnal_resolve_init_is_resolved]

/-- Construction is the identity on resolved configurations. -/
theorem client_init_config_of_resolved (cls : ClientClass) (d : InitDraws)
    (c : ClientSimulationConfig) (h : config_resolved cls c) :
    client_init_config cls d c = c := by
  cases cls
  · rfl
  · rfl
  · simp only [client_init_config, Skewed.skewed_resolve_init_of_resolved d _ h]
  · simp only [client_init_config, Diurnal.diurnal_resolve_init_of_resolved d _ h]
  · obtain ⟨h1, h2⟩ := h
    simp only [client_init_config, Skewed.skewed_resolve_init_of_resolved d _ h1,
      Diurnal.diurnal_resolve_init_of_resolved d _ h2]

/-- C2: storing the population and then loading it reconstructs, in order,
clients of the same archetype class with identical frozen configuration
fields (archetype tag, resolved lazy fields, client index), for any oracle
draws — so the restore path never re-samples a lazily resolved field that is
already set; and every freshly constructed configuration is resolved. -/
theorem persist_restore_round_trip :
    (∀ (cls : ClientClass) (d : InitDraws) (c : ClientSimulationConfig),
       config_resolved cls (client_init_config cls d c)) ∧
    (∀ (clients : List SimulationClient) (d : InitDraws),
       (∀ client ∈ clients,
          client.client_class = client.client_simulation_config.client_class ∧
          config_resolved client.client_class client.client_simulation_config) →
       load_clients (store clients) d = clients) := by
  refine ⟨client_init_config_resolved, ?_⟩
  intro clients d h
  induction clients with
  | nil => rfl
  | cons x xs ih =>
    obtain ⟨htag, hres⟩ := h x (List.mem_cons_self x xs)
    have hxs := ih fun c hc => h c (List.mem_cons_of_mem x hc)
    obtain ⟨cls, cfg, csc⟩ := x
    simp only at htag hres
    subst htag
    simp only [store, load_clients, List.map_cons] at hxs ⊢
    rw [client_init_config_of_resolved _ d _ hres, hxs]

/-- Concrete resolved client for the C2 witness. -/
def round_trip_client : SimulationClient where
  client_class := .skewed_coordinate_gradient
  config := { latitude := 10, longitude := 20, k := 3, max_depth := 24 }
  client_simulation_config :=
    { client_class := .skewed_coordinate_gradient
      client_index := 0
      max_client_index := 1
      skewed :=
        { day_squeeze := 1
          bias_generation := some (.fixed 2)
          bias := some 2
          noise_generation := none
          impulse_noise_chance := none
          impulse_generation := .fixed 0
          skipped_measurement_chance := none
          dropout_chance := none
          dropout_period := .fixed 300
          value_retain_chance := none
          value_retain_period := .fixed 300
          daily_bias_generation := none
          positive_daytime_bias_impact_generation := none
          positive_daytime_bias_impact := none }
      diurnal := accuracy_cfg }

/-- Witness for C2: a one-client population with a resolved skewed
coordinate-gradient client survives the store/load round trip unchanged,
under oracle draws that would change every lazy field if re-sampled. -/
theorem persist_restore_round_trip_witness :
    load_clients (store [round_trip_client]) ⟨9, 9, 9, 9, 9, 9, 9⟩ =
      [round_trip_client] :=
  persist_restore_round_trip.2 [round_trip_client] ⟨9, 9, 9, 9, 9, 9, 9⟩
    (by
      intro client hc
      rw [List.mem_singleton] at hc
      subst hc
      exact ⟨rfl, fun h => absurd h (by decide), fun _ => rfl⟩)

/-- Outcome of opening and unpickling the population snapshot file
(simulation_manager.py lines 63-65): the file may be absent
(`FileNotFoundError`), unreadable or undeserializable (any other raised
error, carried as a message), or yield the stored pairs. -/
inductive PickleReadResult where
  | absent
  | read_failure (message : String)
  | ok (configs : List (ClientConfig × ClientSimulationConfig))

/-- Embedding of `SimulationManager.load` (simulation_manager.py lines
56-79) as called from `__init__` with `clients` already set: only
`FileNotFoundError` is caught, leaving the population as it was; a
successful read replaces the population with the instantiated stored pairs;
any other failure propagates. -/
def manager_load (clients : List SimulationClient) (file : PickleReadResult)
    (d : InitDraws) : Except String (List SimulationClient) :=
  match file with
  | .absent => .ok clients
  | .read_failure message => .error message
  | .ok configs => .ok (load_clients configs d)

/-- C7: if the snapshot (pickle) file is absent, load completes normally
leaving the population empty (as initialized by the manager constructor);
every other read or deserialization failure propagates as an error. -/
theorem load_missing_snapshot_recoverable (d : InitDraws) :
    manager_load [] .absent d = .ok [] ∧
    ∀ (message : String) (clients : List SimulationClient),
      manager_load clients (.read_failure message) d = .error message :=
  ⟨rfl, fun _ _ => rfl⟩

/-- Witness for C7: the theorem applied at concrete draws and message. -/
theorem load_missing_snapshot_recoverable_witness :
    manager_load [] .absent ⟨0, 0, 0, 0, 0, 0, 0⟩ = .ok [] ∧
    manager_load [round_trip_client]
      (.read_failure "unpickling error") ⟨0, 0, 0, 0, 0, 0, 0⟩ =
      .error "unpickling error" :=
  ⟨(load_missing_snapshot_recoverable ⟨0, 0, 0, 0, 0, 0, 0⟩).1,
   (load_missing_snapshot_recoverable ⟨0, 0, 0, 0, 0, 0, 0⟩).2
     "unpickling error" [round_trip_client]⟩
